import Mathlib

/-!
Verification of `src/autofill.js`: a browser message handler that, on a
`message` event whose `data.type` is `"image_selected"`, locates the two
inputs named `image_id_selected` and `image_url_selected`, writes
`data.image_id` / `data.image_url` into their values, dispatches bubbling
`input` and `change` events on each, and shows an alert; if either input
is missing it logs a console error; for any other payload it does nothing
beyond the initial console.log.

The embedding models JavaScript values (`undefined`, `null`, strings,
objects), JS truthiness, strict equality against a string literal, and
property access (which throws a TypeError on `undefined`/`null`).  The
DOM is a list of named input elements; `querySelector` returns the first
input with the given `name` attribute.  The handler returns the updated
document together with a trace of its observable actions (console logs,
console errors, value assignments, event dispatches, the alert), inside
`Except` so that a thrown exception is representable.
-/

namespace Autofill

/-- A JavaScript value, as far as the script can observe it: `undefined`,
`null`, a string, or an object given by its own enumerable properties. -/
inductive JSValue where
  | undefined
  | null
  | str (s : String)
  | obj (fields : List (String × JSValue))

/-- JS truthiness: `undefined`, `null` and `""` are falsy; any other
string and every object is truthy. -/
def truthy : JSValue → Bool
  | .undefined => false
  | .null => false
  | .str s => !(s == "")
  | .obj _ => true

/-- Property lookup on an object's own fields; an absent property reads
as `undefined`. -/
def objField (fs : List (String × JSValue)) (k : String) : JSValue :=
  (Option.map Prod.snd (fs.find? (fun p => p.1 == k))).getD JSValue.undefined

/-- JS property access `v.k`: throws a TypeError on `undefined`/`null`,
yields `undefined` on a string primitive (the script reads no String
prototype properties), and reads the field on an object. -/
def getField (v : JSValue) (k : String) : Except String JSValue :=
  match v with
  | .undefined => .error "TypeError: cannot read properties of undefined"
  | .null => .error "TypeError: cannot read properties of null"
  | .str _ => .ok .undefined
  | .obj fs => .ok (objField fs k)

/-- Total property read: what `v.k` evaluates to when it does not throw
(`undefined` for non-objects).  Used only to state properties. -/
def getFieldD (v : JSValue) (k : String) : JSValue :=
  match v with
  | .obj fs => objField fs k
  | _ => .undefined

/-- JS strict equality `v === s` against a string literal. -/
def strictEqStr (v : JSValue) (s : String) : Bool :=
  match v with
  | .str t => t == s
  | _ => false

/-- An `<input>` element: its `name` attribute and its `value` property.
The value holds the JS value assigned to it. -/
structure InputElem where
  name : String
  value : JSValue

/-- The document: its input elements, in document order. -/
structure Document where
  inputs : List InputElem

/-- `document.querySelector('input[name="n"]')`: the first input whose
`name` attribute is `n`, if any. -/
def querySelector (d : Document) (n : String) : Option InputElem :=
  d.inputs.find? (fun e => e.name == n)

/-- Assign `v` to the `value` of the first input named `n` (the element
`querySelector` would return); leaves the list unchanged if none matches. -/
def setFirstValue : List InputElem → String → JSValue → List InputElem
  | [], _, _ => []
  | e :: rest, n, v =>
    if e.name == n then { e with value := v } :: rest
    else e :: setFirstValue rest n v

/-- `querySelector(n).value = v` on the document. -/
def setInputValue (d : Document) (n : String) (v : JSValue) : Document :=
  ⟨setFirstValue d.inputs n v⟩

/-- The `value` currently held by the first input named `n`, if that
input exists. -/
def inputValue (d : Document) (n : String) : Option JSValue :=
  Option.map InputElem.value (querySelector d n)

/-- The `message` event delivered to the listener: its `data` payload and
its `origin` (which the script never reads). -/
structure MessageEvent where
  data : JSValue
  origin : String

/-- An observable action of the handler, in the order performed. -/
inductive Action where
  | consoleLog (msg : String)
  | consoleError (msg : String)
  | setValue (name : String) (v : JSValue)
  | dispatch (name : String) (evtType : String) (bubbles : Bool)
  | alert (msg : String)

/-- The action trace of the success branch (lines 3-27 of the source):
the four console.log calls, both value assignments, the four bubbling
event dispatches in source order, the final log and the alert. -/
def successTrace (vId vUrl : JSValue) : List Action :=
  [.consoleLog "Message received:",
   .consoleLog "Processing image selection...",
   .consoleLog "Image ID field:",
   .consoleLog "Image URL field:",
   .setValue "image_id_selected" vId,
   .setValue "image_url_selected" vUrl,
   .dispatch "image_id_selected" "input" true,
   .dispatch "image_id_selected" "change" true,
   .dispatch "image_url_selected" "input" true,
   .dispatch "image_url_selected" "change" true,
   .consoleLog "Fields updated successfully",
   .alert "✅ Image selected! Fields have been filled."]

/-- The action trace of the missing-element branch (lines 3-13 and 29). -/
def missingTrace : List Action :=
  [.consoleLog "Message received:",
   .consoleLog "Processing image selection...",
   .consoleLog "Image ID field:",
   .consoleLog "Image URL field:",
   .consoleError "Could not find input fields"]

/-- The message listener of `src/autofill.js`.  `event.data` is logged,
then the guard `event.data && event.data.type === 'image_selected'`
(truthiness check short-circuits before the property read, which could
throw); on a match the two inputs are located and, if both exist, their
values are assigned from `event.data.image_id` / `event.data.image_url`
and the bubbling `input`/`change` events dispatched on each in source
order, ending in the alert; otherwise a console error.  Returns the
updated document and the action trace, or the thrown exception. -/
def handler (event : MessageEvent) (dom : Document) :
    Except String (Document × List Action) :=
  if truthy event.data then
    match getField event.data "type" with
    | .error e => .error e
    | .ok ty =>
      if strictEqStr ty "image_selected" then
        match querySelector dom "image_id_selected",
              querySelector dom "image_url_selected" with
        | some _, some _ =>
          match getField event.data "image_id" with
          | .error e => .error e
          | .ok vId =>
            match getField event.data "image_url" with
            | .error e => .error e
            | .ok vUrl =>
              .ok (setInputValue (setInputValue dom "image_id_selected" vId)
                     "image_url_selected" vUrl,
                   successTrace vId vUrl)
        | _, _ => .ok (dom, missingTrace)
      else .ok (dom, [.consoleLog "Message received:"])
  else .ok (dom, [.consoleLog "Message received:"])

/-- The guard of line 5, as a total predicate on the payload:
`event.data && event.data.type === 'image_selected'`. -/
def payloadSelected (v : JSValue) : Bool :=
  truthy v && strictEqStr (getFieldD v "type") "image_selected"

/-- The (document, trace) result of a run; the handler never throws,
so the fallback pair is never taken. -/
def runResult (event : MessageEvent) (dom : Document) : Document × List Action :=
  ((handler event dom).toOption).getD (dom, [])

/-- The document after a run. -/
def runDom (event : MessageEvent) (dom : Document) : Document :=
  (runResult event dom).1

/-- The action trace of a run. -/
def runTrace (event : MessageEvent) (dom : Document) : List Action :=
  (runResult event dom).2

/-- Is the action a `console.error`? -/
def isConsoleError : Action → Bool
  | .consoleError _ => true
  | _ => false

/-- Is the action an `alert`? -/
def isAlert : Action → Bool
  | .alert _ => true
  | _ => false

/-- Is the action a write to some input's `value`? -/
def isSetValue : Action → Bool
  | .setValue _ _ => true
  | _ => false

/-- Is the action a `dispatchEvent`? -/
def isDispatch : Action → Bool
  | .dispatch _ _ _ => true
  | _ => false

/-- Is the action a DOM mutation or an event dispatch? -/
def isMutationOrDispatch (a : Action) : Bool :=
  isSetValue a || isDispatch a

/-- Is the action a bubbling dispatch of event `ty` on the input named
`n`? -/
def isDispatchOn (n ty : String) : Action → Bool
  | .dispatch m t b => m == n && t == ty && b
  | _ => false

/-- The handler's result as a function of only the three payload
projections `data.type`, `data.image_id`, `data.image_url` (a derived
view of `handler`, proved equal to it in `handler_eq_proj`; used for the
determinism and totality proofs). -/
def handlerProj (ty vId vUrl : JSValue) (dom : Document) : Document × List Action :=
  if strictEqStr ty "image_selected" then
    match querySelector dom "image_id_selected",
          querySelector dom "image_url_selected" with
    | some _, some _ =>
      (setInputValue (setInputValue dom "image_id_selected" vId)
         "image_url_selected" vUrl,
       successTrace vId vUrl)
    | _, _ => (dom, missingTrace)
  else (dom, [.consoleLog "Message received:"])

theorem handler_eq_proj (e : MessageEvent) (d : Document) :
    handler e d =
      .ok (handlerProj (getFieldD e.data "type") (getFieldD e.data "image_id")
             (getFieldD e.data "image_url") d) := by
  obtain ⟨data, origin⟩ := e
  cases data with
  | undefined => rfl
  | null => rfl
  | str s =>
    by_cases hs : (s == "") = true
    · simp [handler, handlerProj, truthy, getFieldD, strictEqStr, hs]
    · simp [handler, handlerProj, truthy, getField, getFieldD, strictEqStr,
        hs]
  | obj fs =>
    by_cases hty : strictEqStr (objField fs "type") "image_selected" = true
    · simp only [handler, handlerProj, truthy, getField, getFieldD, hty,
        if_true, if_pos]
      rcases querySelector d "image_id_selected" with _ | eId <;>
        rcases querySelector d "image_url_selected" with _ | eUrl <;> rfl
    · simp [handler, handlerProj, truthy, getField, getFieldD, hty]

theorem runResult_eq_proj (e : MessageEvent) (d : Document) :
    runResult e d =
      handlerProj (getFieldD e.data "type") (getFieldD e.data "image_id")
        (getFieldD e.data "image_url") d := by
  rw [runResult, handler_eq_proj]
  rfl

theorem find_setFirstValue_same (l : List InputElem) (n : String) (v : JSValue) :
    List.find? (fun e => e.name == n) (setFirstValue l n v) =
      Option.map (fun e => { e with value := v }) (List.find? (fun e => e.name == n) l) := by
  induction l with
  | nil => rfl
  | cons e rest ih =>
    by_cases h : (e.name == n) = true
    · simp [setFirstValue, List.find?, h]
    · simp only [setFirstValue, h, if_false, Bool.false_eq_true]
      rw [List.find?]
      simp only [h]
      rw [List.find?]
      simp only [h, ih]

theorem find_setFirstValue_other (l : List InputElem) (n m : String) (v : JSValue)
    (h : (m == n) = false) :
    List.find? (fun e => e.name == m) (setFirstValue l n v) =
      List.find? (fun e => e.name == m) l := by
  induction l with
  | nil => rfl
  | cons e rest ih =>
    by_cases hn : (e.name == n) = true
    · have hm : (e.name == m) = false := by
        rcases hmv : e.name == m with _ | _
        · rfl
        · exfalso
          rw [beq_iff_eq] at hn hmv
          rw [← hn, hmv] at h
          simp at h
      simp [setFirstValue, List.find?, hn, hm]
    · simp only [setFirstValue, hn, if_false, Bool.false_eq_true]
      rw [List.find?]
      rw [List.find?]
      cases e.name == m with
      | true => rfl
      | false => simpa using ih

theorem inputValue_set_same (d : Document) (n : String) (v : JSValue)
    (h : (querySelector d n).isSome = true) :
    inputValue (setInputValue d n v) n = some v := by
  rw [Option.isSome_iff_exists] at h
  obtain ⟨e, he⟩ := h
  rw [inputValue, querySelector, setInputValue, find_setFirstValue_same]
  rw [querySelector] at he
  rw [he]
  rfl

theorem inputValue_set_other (d : Document) (n m : String) (v : JSValue)
    (h : (m == n) = false) :
    inputValue (setInputValue d n v) m = inputValue d m := by
  rw [inputValue, querySelector, setInputValue, find_setFirstValue_other _ _ _ _ h]
  rfl

theorem querySelector_set_isSome (d : Document) (n m : String) (v : JSValue) :
    (querySelector (setInputValue d n v) m).isSome = (querySelector d m).isSome := by
  by_cases h : (m == n) = true
  · rw [beq_iff_eq] at h
    subst h
    rw [querySelector, setInputValue, find_setFirstValue_same]
    rw [querySelector]
    cases List.find? (fun e => e.name == m) d.inputs <;> rfl
  · rw [querySelector, setInputValue,
      find_setFirstValue_other _ _ _ _ (by simpa using h)]
    rfl

theorem strictEqStr_eq_false (v : JSValue) (s : String) (h : v ≠ JSValue.str s) :
    strictEqStr v s = false := by
  cases v with
  | undefined => rfl
  | null => rfl
  | obj fs => rfl
  | str t =>
    simp only [strictEqStr]
    rcases ht : t == s with _ | _
    · rfl
    · rw [beq_iff_eq] at ht
      exact absurd (by rw [ht]) h

theorem payloadSelected_eq_strictEq (v : JSValue) :
    payloadSelected v = strictEqStr (getFieldD v "type") "image_selected" := by
  cases v with
  | undefined => rfl
  | null => rfl
  | str s => simp [payloadSelected, truthy, getFieldD, strictEqStr]
  | obj fs => simp [payloadSelected, truthy, getFieldD]

theorem runResult_success (fs : List (String × JSValue)) (origin : String) (d : Document)
    (hty : objField fs "type" = JSValue.str "image_selected")
    (hid : (querySelector d "image_id_selected").isSome = true)
    (hurl : (querySelector d "image_url_selected").isSome = true) :
    runResult ⟨JSValue.obj fs, origin⟩ d =
      (setInputValue (setInputValue d "image_id_selected" (objField fs "image_id"))
         "image_url_selected" (objField fs "image_url"),
       successTrace (objField fs "image_id") (objField fs "image_url")) := by
  rw [runResult_eq_proj]
  rcases hQ1 : querySelector d "image_id_selected" with _ | eId
  · rw [hQ1] at hid
    simp at hid
  rcases hQ2 : querySelector d "image_url_selected" with _ | eUrl
  · rw [hQ2] at hurl
    simp at hurl
  simp [getFieldD, hty, handlerProj, strictEqStr, hQ1, hQ2]

theorem runResult_missing (e : MessageEvent) (d : Document)
    (hty : getFieldD e.data "type" = JSValue.str "image_selected")
    (hmiss : (querySelector d "image_id_selected").isSome = false ∨
             (querySelector d "image_url_selected").isSome = false) :
    runResult e d = (d, missingTrace) := by
  rw [runResult_eq_proj, hty]
  rcases hQ1 : querySelector d "image_id_selected" with _ | eId
  · simp [handlerProj, strictEqStr, hQ1]
  rcases hQ2 : querySelector d "image_url_selected" with _ | eUrl
  · simp [handlerProj, strictEqStr, hQ1, hQ2]
  rw [hQ1, hQ2] at hmiss
  rcases hmiss with h | h <;> simp at h

theorem runResult_other_type (e : MessageEvent) (d : Document)
    (hty : getFieldD e.data "type" ≠ JSValue.str "image_selected") :
    runResult e d = (d, [Action.consoleLog "Message received:"]) := by
  rw [runResult_eq_proj]
  simp [handlerProj, strictEqStr_eq_false _ _ hty]

/-- A concrete document holding both required inputs. -/
def bothDoc : Document :=
  ⟨[⟨"image_id_selected", JSValue.str ""⟩, ⟨"image_url_selected", JSValue.str ""⟩]⟩

/-- A concrete document holding only the `image_id_selected` input. -/
def onlyIdDoc : Document :=
  ⟨[⟨"image_id_selected", JSValue.str ""⟩]⟩

/-- A concrete well-formed `image_selected` payload. -/
def selPayload : List (String × JSValue) :=
  [("type", JSValue.str "image_selected"),
   ("image_id", JSValue.str "img-42"),
   ("image_url", JSValue.str "https://example.com/i.png")]

/-- The same payload with an extra, irrelevant field. -/
def richPayload : List (String × JSValue) :=
  [("type", JSValue.str "image_selected"),
   ("image_id", JSValue.str "img-42"),
   ("image_url", JSValue.str "https://example.com/i.png"),
   ("extra", JSValue.str "ignored")]

/-- An `image_selected` payload with neither `image_id` nor
`image_url`. -/
def typeOnlyPayload : List (String × JSValue) :=
  [("type", JSValue.str "image_selected")]

/-- Claim C1: for every message whose payload type is `"image_selected"`,
when both inputs named `image_id_selected` and `image_url_selected` exist
in the document, the handler sets the first's value to the payload's
`image_id`, the second's to the payload's `image_url`, and dispatches a
bubbling `"input"` and a bubbling `"change"` event on each of the two
elements, each exactly once. -/
theorem c1_success_fills_fields_and_fires_events (fs : List (String × JSValue))
    (origin : String) (d : Document)
    (hty : objField fs "type" = JSValue.str "image_selected")
    (hid : (querySelector d "image_id_selected").isSome = true)
    (hurl : (querySelector d "image_url_selected").isSome = true) :
    inputValue (runDom ⟨JSValue.obj fs, origin⟩ d) "image_id_selected" =
        some (objField fs "image_id") ∧
    inputValue (runDom ⟨JSValue.obj fs, origin⟩ d) "image_url_selected" =
        some (objField fs "image_url") ∧
    (runTrace ⟨JSValue.obj fs, origin⟩ d).countP
        (isDispatchOn "image_id_selected" "input") = 1 ∧
    (runTrace ⟨JSValue.obj fs, origin⟩ d).countP
        (isDispatchOn "image_id_selected" "change") = 1 ∧
    (runTrace ⟨JSValue.obj fs, origin⟩ d).countP
        (isDispatchOn "image_url_selected" "input") = 1 ∧
    (runTrace ⟨JSValue.obj fs, origin⟩ d).countP
        (isDispatchOn "image_url_selected" "change") = 1 := by
  have hrun := runResult_success fs origin d hty hid hurl
  have hDom : runDom ⟨JSValue.obj fs, origin⟩ d =
      setInputValue (setInputValue d "image_id_selected" (objField fs "image_id"))
        "image_url_selected" (objField fs "image_url") := by
    rw [runDom, hrun]
  have hTr : runTrace ⟨JSValue.obj fs, origin⟩ d =
      successTrace (objField fs "image_id") (objField fs "image_url") := by
    rw [runTrace, hrun]
  refine ⟨?_, ?_, ?_, ?_, ?_, ?_⟩
  · rw [hDom,
      inputValue_set_other _ "image_url_selected" "image_id_selected" _ rfl]
    exact inputValue_set_same d _ _ hid
  · rw [hDom]
    apply inputValue_set_same
    rw [querySelector_set_isSome]
    exact hurl
  · rw [hTr]
    rfl
  · rw [hTr]
    rfl
  · rw [hTr]
    rfl
  · rw [hTr]
    rfl

/-- Witness for C1: a concrete payload and a document holding both
inputs. -/
theorem c1_success_fills_fields_and_fires_events_witness :
    objField selPayload "type" = JSValue.str "image_selected" ∧
    (querySelector bothDoc "image_id_selected").isSome = true ∧
    (querySelector bothDoc "image_url_selected").isSome = true ∧
    inputValue (runDom ⟨JSValue.obj selPayload, "https://app.example"⟩ bothDoc)
        "image_id_selected" = some (objField selPayload "image_id") ∧
    inputValue (runDom ⟨JSValue.obj selPayload, "https://app.example"⟩ bothDoc)
        "image_url_selected" = some (objField selPayload "image_url") ∧
    (runTrace ⟨JSValue.obj selPayload, "https://app.example"⟩ bothDoc).countP
        (isDispatchOn "image_id_selected" "input") = 1 ∧
    (runTrace ⟨JSValue.obj selPayload, "https://app.example"⟩ bothDoc).countP
        (isDispatchOn "image_id_selected" "change") = 1 ∧
    (runTrace ⟨JSValue.obj selPayload, "https://app.example"⟩ bothDoc).countP
        (isDispatchOn "image_url_selected" "input") = 1 ∧
    (runTrace ⟨JSValue.obj selPayload, "https://app.example"⟩ bothDoc).countP
        (isDispatchOn "image_url_selected" "change") = 1 :=
  ⟨rfl, rfl, rfl,
   c1_success_fills_fields_and_fires_events selPayload "https://app.example" bothDoc
     rfl rfl rfl⟩

/-- Claim C2: for every message whose payload is absent
(`null`/`undefined`) or whose `type` field differs from
`"image_selected"`, the handler performs no DOM mutation: the document is
unchanged and the trace holds no value write and no event dispatch. -/
theorem c2_other_type_no_mutation (e : MessageEvent) (d : Document)
    (h : e.data = JSValue.null ∨ e.data = JSValue.undefined ∨
         getFieldD e.data "type" ≠ JSValue.str "image_selected") :
    runDom e d = d ∧ (runTrace e d).any isMutationOrDispatch = false := by
  have hne : getFieldD e.data "type" ≠ JSValue.str "image_selected" := by
    rcases h with h | h | h
    · rw [h]
      simp [getFieldD]
    · rw [h]
      simp [getFieldD]
    · exact h
  have hrun := runResult_other_type e d hne
  constructor
  · rw [runDom, hrun]
  · rw [runTrace, hrun]
    rfl

/-- Witness for C2: a `null` payload leaves a two-input document
untouched. -/
theorem c2_other_type_no_mutation_witness :
    ((⟨JSValue.null, "https://app.example"⟩ : MessageEvent).data = JSValue.null ∨
     (⟨JSValue.null, "https://app.example"⟩ : MessageEvent).data = JSValue.undefined ∨
     getFieldD (⟨JSValue.null, "https://app.example"⟩ : MessageEvent).data "type" ≠
       JSValue.str "image_selected") ∧
    runDom ⟨JSValue.null, "https://app.example"⟩ bothDoc = bothDoc ∧
    (runTrace ⟨JSValue.null, "https://app.example"⟩ bothDoc).any
      isMutationOrDispatch = false :=
  ⟨Or.inl rfl,
   c2_other_type_no_mutation ⟨JSValue.null, "https://app.example"⟩ bothDoc (Or.inl rfl)⟩

/-- Claim C3: for every message with payload type `"image_selected"`, if
at least one of the two required inputs is absent, the handler logs a
console error and throws no exception. -/
theorem c3_missing_inputs_logs_error_no_throw (e : MessageEvent) (d : Document)
    (hty : getFieldD e.data "type" = JSValue.str "image_selected")
    (hmiss : (querySelector d "image_id_selected").isSome = false ∨
             (querySelector d "image_url_selected").isSome = false) :
    (runTrace e d).any isConsoleError = true ∧ (handler e d).isOk = true := by
  constructor
  · rw [runTrace, runResult_missing e d hty hmiss]
    rfl
  · rw [handler_eq_proj]
    rfl

/-- Witness for C3: a matching payload against a document that lacks the
`image_url_selected` input. -/
theorem c3_missing_inputs_logs_error_no_throw_witness :
    getFieldD (JSValue.obj selPayload) "type" = JSValue.str "image_selected" ∧
    ((querySelector onlyIdDoc "image_id_selected").isSome = false ∨
     (querySelector onlyIdDoc "image_url_selected").isSome = false) ∧
    (runTrace ⟨JSValue.obj selPayload, "https://app.example"⟩ onlyIdDoc).any
        isConsoleError = true ∧
    (handler ⟨JSValue.obj selPayload, "https://app.example"⟩ onlyIdDoc).isOk = true :=
  ⟨rfl, Or.inr rfl,
   c3_missing_inputs_logs_error_no_throw ⟨JSValue.obj selPayload, "https://app.example"⟩
     onlyIdDoc rfl (Or.inr rfl)⟩

/-- Claim C4: the two-field update is atomic: with payload type
`"image_selected"` and exactly one of the two inputs present, no input's
value changes, no event is dispatched and no alert is shown — there is
never a write to only one field. -/
theorem c4_one_input_missing_writes_nothing (e : MessageEvent) (d : Document)
    (hty : getFieldD e.data "type" = JSValue.str "image_selected")
    (hone : ((querySelector d "image_id_selected").isSome = true ∧
             (querySelector d "image_url_selected").isSome = false) ∨
            ((querySelector d "image_id_selected").isSome = false ∧
             (querySelector d "image_url_selected").isSome = true)) :
    runDom e d = d ∧
    (runTrace e d).any isMutationOrDispatch = false ∧
    (runTrace e d).any isAlert = false := by
  have hmiss : (querySelector d "image_id_selected").isSome = false ∨
      (querySelector d "image_url_selected").isSome = false := by
    rcases hone with ⟨_, h⟩ | ⟨h, _⟩
    · exact Or.inr h
    · exact Or.inl h
  have hrun := runResult_missing e d hty hmiss
  refine ⟨?_, ?_, ?_⟩
  · rw [runDom, hrun]
  · rw [runTrace, hrun]
    rfl
  · rw [runTrace, hrun]
    rfl

/-- Witness for C4: a matching payload against a document holding only
the `image_id_selected` input. -/
theorem c4_one_input_missing_writes_nothing_witness :
    getFieldD (JSValue.obj selPayload) "type" = JSValue.str "image_selected" ∧
    (((querySelector onlyIdDoc "image_id_selected").isSome = true ∧
      (querySelector onlyIdDoc "image_url_selected").isSome = false) ∨
     ((querySelector onlyIdDoc "image_id_selected").isSome = false ∧
      (querySelector onlyIdDoc "image_url_selected").isSome = true)) ∧
    runDom ⟨JSValue.obj selPayload, "https://app.example"⟩ onlyIdDoc = onlyIdDoc ∧
    (runTrace ⟨JSValue.obj selPayload, "https://app.example"⟩ onlyIdDoc).any
        isMutationOrDispatch = false ∧
    (runTrace ⟨JSValue.obj selPayload, "https://app.example"⟩ onlyIdDoc).any
        isAlert = false :=
  ⟨rfl, Or.inl ⟨rfl, rfl⟩,
   c4_one_input_missing_writes_nothing ⟨JSValue.obj selPayload, "https://app.example"⟩
     onlyIdDoc rfl (Or.inl ⟨rfl, rfl⟩)⟩

/-- Claim C5: the blocking alert is shown exactly when the handler takes
the success path: the payload passes the `image_selected` guard and both
required inputs exist; on every other path no alert is shown. -/
theorem c5_alert_iff_success_path (e : MessageEvent) (d : Document) :
    (runTrace e d).any isAlert =
      (payloadSelected e.data &&
       (querySelector d "image_id_selected").isSome &&
       (querySelector d "image_url_selected").isSome) := by
  rw [payloadSelected_eq_strictEq, runTrace, runResult_eq_proj]
  by_cases hty : strictEqStr (getFieldD e.data "type") "image_selected" = true
  · rw [hty]
    rcases hQ1 : querySelector d "image_id_selected" with _ | eId <;>
      rcases hQ2 : querySelector d "image_url_selected" with _ | eUrl <;>
      simp [handlerProj, hty, hQ1, hQ2, successTrace, missingTrace, isAlert]
  · rw [Bool.not_eq_true] at hty
    rw [hty]
    simp [handlerProj, hty, isAlert]

/-- Claim C7: the handler is total and never throws, whatever the shape
of the payload: the truthiness guard runs before the `type` property is
read, so `null`, `undefined` and non-object payloads raise no
exception. -/
theorem c7_never_throws (e : MessageEvent) (d : Document) :
    (handler e d).isOk = true := by
  rw [handler_eq_proj]
  rfl

/-- Claim C8: the handler's behaviour depends only on the payload's
`type`, `image_id` and `image_url` fields (and the document): two runs on
the same document whose payloads agree on those three projections produce
identical results, whatever other payload fields or message origins the
two events carry. -/
theorem c8_depends_only_on_three_fields (d : Document) (e1 e2 : MessageEvent)
    (hty : getFieldD e1.data "type" = getFieldD e2.data "type")
    (hid : getFieldD e1.data "image_id" = getFieldD e2.data "image_id")
    (hurl : getFieldD e1.data "image_url" = getFieldD e2.data "image_url") :
    handler e1 d = handler e2 d := by
  rw [handler_eq_proj, handler_eq_proj, hty, hid, hurl]

/-- Witness for C8: a payload with an extra field and a different origin
behaves exactly like the plain payload. -/
theorem c8_depends_only_on_three_fields_witness :
    getFieldD (⟨JSValue.obj richPayload, "https://other.example"⟩ : MessageEvent).data
        "type" =
      getFieldD (⟨JSValue.obj selPayload, "https://app.example"⟩ : MessageEvent).data
        "type" ∧
    getFieldD (⟨JSValue.obj richPayload, "https://other.example"⟩ : MessageEvent).data
        "image_id" =
      getFieldD (⟨JSValue.obj selPayload, "https://app.example"⟩ : MessageEvent).data
        "image_id" ∧
    getFieldD (⟨JSValue.obj richPayload, "https://other.example"⟩ : MessageEvent).data
        "image_url" =
      getFieldD (⟨JSValue.obj selPayload, "https://app.example"⟩ : MessageEvent).data
        "image_url" ∧
    handler ⟨JSValue.obj richPayload, "https://other.example"⟩ bothDoc =
      handler ⟨JSValue.obj selPayload, "https://app.example"⟩ bothDoc :=
  ⟨rfl, rfl, rfl,
   c8_depends_only_on_three_fields bothDoc
     ⟨JSValue.obj richPayload, "https://other.example"⟩
     ⟨JSValue.obj selPayload, "https://app.example"⟩ rfl rfl rfl⟩

/-- Counterexample to claim C6: a message whose payload type is
`"other"` (not `"image_selected"`) produces no console error at all —
the source's `else` branch belongs to the inner both-inputs check, not to
the type guard, so a non-matching type silently falls through. -/
theorem c6_counterexample_no_error_logged :
    getFieldD (JSValue.obj [("type", JSValue.str "other")]) "type" ≠
      JSValue.str "image_selected" ∧
    (runTrace ⟨JSValue.obj [("type", JSValue.str "other")], "https://app.example"⟩
        bothDoc).any isConsoleError = false := by
  constructor
  · intro h
    rw [show getFieldD (JSValue.obj [("type", JSValue.str "other")]) "type" =
          JSValue.str "other" from rfl] at h
    exact absurd (JSValue.str.inj h) (by decide)
  · rfl

/-- Claim C6 (amended): for every message whose payload type differs
from `"image_selected"`, the handler logs no error: the console-error
branch is reached only when the type matches and a required input is
missing. -/
theorem c6_amended_no_error_on_other_type (e : MessageEvent) (d : Document)
    (h : getFieldD e.data "type" ≠ JSValue.str "image_selected") :
    (runTrace e d).any isConsoleError = false := by
  rw [runTrace, runResult_other_type e d h]
  rfl

/-- Witness for the amended C6 at a concrete non-matching payload. -/
theorem c6_amended_no_error_on_other_type_witness :
    getFieldD (⟨JSValue.obj [("type", JSValue.str "other")], "https://app.example"⟩ :
        MessageEvent).data "type" ≠ JSValue.str "image_selected" ∧
    (runTrace ⟨JSValue.obj [("type", JSValue.str "other")], "https://app.example"⟩
        bothDoc).any isConsoleError = false := by
  have hne : getFieldD (⟨JSValue.obj [("type", JSValue.str "other")],
      "https://app.example"⟩ : MessageEvent).data "type" ≠
      JSValue.str "image_selected" := by
    intro h
    rw [show getFieldD (⟨JSValue.obj [("type", JSValue.str "other")],
          "https://app.example"⟩ : MessageEvent).data "type" =
          JSValue.str "other" from rfl] at h
    exact absurd (JSValue.str.inj h) (by decide)
  exact ⟨hne,
    c6_amended_no_error_on_other_type
      ⟨JSValue.obj [("type", JSValue.str "other")], "https://app.example"⟩ bothDoc hne⟩

/-- Claim C9: on the success path both value assignments precede every
synthetic event dispatch, and the dispatches come in the fixed source
order — `input` then `change` on the id field, then `input` then `change`
on the url field; in particular both fields already hold their new values
when the first `input` event fires, and still hold them at the end of the
run. -/
theorem c9_assignments_before_dispatches_in_order (fs : List (String × JSValue))
    (origin : String) (d : Document)
    (hty : objField fs "type" = JSValue.str "image_selected")
    (hid : (querySelector d "image_id_selected").isSome = true)
    (hurl : (querySelector d "image_url_selected").isSome = true) :
    (runTrace ⟨JSValue.obj fs, origin⟩ d).filter isMutationOrDispatch =
      [Action.setValue "image_id_selected" (objField fs "image_id"),
       Action.setValue "image_url_selected" (objField fs "image_url"),
       Action.dispatch "image_id_selected" "input" true,
       Action.dispatch "image_id_selected" "change" true,
       Action.dispatch "image_url_selected" "input" true,
       Action.dispatch "image_url_selected" "change" true] ∧
    inputValue (runDom ⟨JSValue.obj fs, origin⟩ d) "image_id_selected" =
      some (objField fs "image_id") ∧
    inputValue (runDom ⟨JSValue.obj fs, origin⟩ d) "image_url_selected" =
      some (objField fs "image_url") := by
  have hrun := runResult_success fs origin d hty hid hurl
  refine ⟨?_, ?_, ?_⟩
  · rw [runTrace, hrun]
    rfl
  · rw [runDom, hrun,
      inputValue_set_other _ "image_url_selected" "image_id_selected" _ rfl]
    exact inputValue_set_same d _ _ hid
  · rw [runDom, hrun]
    apply inputValue_set_same
    rw [querySelector_set_isSome]
    exact hurl

/-- Witness for C9 at a concrete payload and two-input document. -/
theorem c9_assignments_before_dispatches_in_order_witness :
    objField selPayload "type" = JSValue.str "image_selected" ∧
    (querySelector bothDoc "image_id_selected").isSome = true ∧
    (querySelector bothDoc "image_url_selected").isSome = true ∧
    (runTrace ⟨JSValue.obj selPayload, "https://app.example"⟩ bothDoc).filter
        isMutationOrDispatch =
      [Action.setValue "image_id_selected" (objField selPayload "image_id"),
       Action.setValue "image_url_selected" (objField selPayload "image_url"),
       Action.dispatch "image_id_selected" "input" true,
       Action.dispatch "image_id_selected" "change" true,
       Action.dispatch "image_url_selected" "input" true,
       Action.dispatch "image_url_selected" "change" true] ∧
    inputValue (runDom ⟨JSValue.obj selPayload, "https://app.example"⟩ bothDoc)
        "image_id_selected" = some (objField selPayload "image_id") ∧
    inputValue (runDom ⟨JSValue.obj selPayload, "https://app.example"⟩ bothDoc)
        "image_url_selected" = some (objField selPayload "image_url") :=
  ⟨rfl, rfl, rfl,
   c9_assignments_before_dispatches_in_order selPayload "https://app.example" bothDoc
     rfl rfl rfl⟩

/-- Claim C10: the payload's `image_id`/`image_url` are not validated:
with type `"image_selected"` and both inputs present, the success path
(assignments, the four dispatches, the alert) runs whatever those two
fields hold — in particular even when `image_id` or `image_url` is
missing from the payload, and the corresponding field is then assigned
the missing (`undefined`) value. -/
theorem c10_no_validation_assigns_undefined (fs : List (String × JSValue))
    (origin : String) (d : Document)
    (hty : objField fs "type" = JSValue.str "image_selected")
    (hid : (querySelector d "image_id_selected").isSome = true)
    (hurl : (querySelector d "image_url_selected").isSome = true) :
    (runTrace ⟨JSValue.obj fs, origin⟩ d).any isAlert = true ∧
    (runTrace ⟨JSValue.obj fs, origin⟩ d).countP isDispatch = 4 ∧
    (objField fs "image_id" = JSValue.undefined →
      inputValue (runDom ⟨JSValue.obj fs, origin⟩ d) "image_id_selected" =
        some JSValue.undefined) ∧
    (objField fs "image_url" = JSValue.undefined →
      inputValue (runDom ⟨JSValue.obj fs, origin⟩ d) "image_url_selected" =
        some JSValue.undefined) := by
  have hrun := runResult_success fs origin d hty hid hurl
  refine ⟨?_, ?_, ?_, ?_⟩
  · rw [runTrace, hrun]
    rfl
  · rw [runTrace, hrun]
    rfl
  · intro hmiss
    rw [runDom, hrun,
      inputValue_set_other _ "image_url_selected" "image_id_selected" _ rfl,
      ← hmiss]
    exact inputValue_set_same d _ _ hid
  · intro hmiss
    have hval : inputValue (runDom ⟨JSValue.obj fs, origin⟩ d)
        "image_url_selected" = some (objField fs "image_url") := by
      rw [runDom, hrun]
      apply inputValue_set_same
      rw [querySelector_set_isSome]
      exact hurl
    rw [hmiss] at hval
    exact hval

/-- Witness for C10: a payload holding only the `type` field — both
`image_id` and `image_url` missing — still takes the success path, and
both inputs are assigned `undefined`. -/
theorem c10_no_validation_assigns_undefined_witness :
    objField typeOnlyPayload "type" = JSValue.str "image_selected" ∧
    (querySelector bothDoc "image_id_selected").isSome = true ∧
    (querySelector bothDoc "image_url_selected").isSome = true ∧
    (runTrace ⟨JSValue.obj typeOnlyPayload, "https://app.example"⟩ bothDoc).any
        isAlert = true ∧
    (runTrace ⟨JSValue.obj typeOnlyPayload, "https://app.example"⟩ bothDoc).countP
        isDispatch = 4 ∧
    (objField typeOnlyPayload "image_id" = JSValue.undefined →
      inputValue (runDom ⟨JSValue.obj typeOnlyPayload, "https://app.example"⟩ bothDoc)
        "image_id_selected" = some JSValue.undefined) ∧
    (objField typeOnlyPayload "image_url" = JSValue.undefined →
      inputValue (runDom ⟨JSValue.obj typeOnlyPayload, "https://app.example"⟩ bothDoc)
        "image_url_selected" = some JSValue.undefined) :=
  ⟨rfl, rfl, rfl,
   c10_no_validation_assigns_undefined typeOnlyPayload "https://app.example" bothDoc
     rfl rfl rfl⟩

end Autofill
